import Mathlib

/-!
Shallow embedding of the wifi-scan-demo access-point selection engine
(src/src/lib.rs, src/src/bin/main.rs) and proofs about its ranking policy,
scan merge, policy monitor and disconnected-state step.

Modelling conventions:
* the 6-byte `bssid : [u8; 6]` is modelled as a `Nat` (fixed-width byte arrays
  compare lexicographically, which for a fixed length is the numeric order of
  the big-endian value);
* `i8` signal strengths are `Int`;
* `heapless::String<32>` network names are `String`;
* Rust `Ordering` is Lean `Ordering` (Less / Equal / Greater become lt / eq / gt);
* a Rust panic (an `unwrap` on an error) is `none` of an `Option` result;
* `Vec::sort_by(c)` (a stable sort, ascending in the comparator `c`) is modelled
  by the stable `List.insertionSort` with the relation `c x y ≠ .gt`; for the
  total preorders used here a stable sort has a unique result, so this agrees
  with whatever stable sort Rust uses;
* `slice::binary_search_by_key` is the standard halving loop of the Rust
  standard library, written with a fuel argument equal to the slice length,
  which is enough for the loop to run to completion;
* the `env!` compile-time strings SSID, PASSWORD, SSID2, PASSWORD2 are the
  fields of an `EnvVars` parameter.
-/

/-- Rust integer `cmp` on the signed values. -/
def intCmp (a b : Int) : Ordering :=
  if a < b then .lt else if a = b then .eq else .gt

/-- Rust integer `cmp` on unsigned values (used for the bssid key). -/
def natCmp (a b : Nat) : Ordering :=
  if a < b then .lt else if a = b then .eq else .gt

/-- `WifiConfig` from src/src/lib.rs lines 20-27. -/
structure WifiConfig where
  bssid : Nat
  ssid : String
  signal_strength : Int
  connect_success : Option Bool
deriving DecidableEq, Inhabited

/-- `WifiConfig::cmp_ss` (lib.rs lines 30-32): compare by signal strength. -/
def WifiConfig.cmp_ss (a b : WifiConfig) : Ordering :=
  intCmp a.signal_strength b.signal_strength

/-- The manual `impl Ord for WifiConfig` (lib.rs lines 40-86), arm by arm. -/
def WifiConfig.cmp (a b : WifiConfig) : Ordering :=
  match a.connect_success, b.connect_success with
  | some true, some true => a.cmp_ss b
  | some true, some false => .gt
  | some false, some true => .lt
  | some false, some false => a.cmp_ss b
  | none, none => a.cmp_ss b
  | none, some true => .lt
  | none, some false => .gt
  | some true, none => .gt
  | some false, none => .lt

/-- The manual `impl PartialEq for WifiConfig` (lib.rs lines 34-38): identity
is the bssid alone. -/
def WifiConfig.rustEq (a b : WifiConfig) : Bool :=
  a.bssid == b.bssid

/-- Rust `Ord` on `bool`: false is less than true. -/
def boolCmp (a b : Bool) : Ordering :=
  if a = b then .eq else if b then .lt else .gt

/-- Rust derived `Ord`/`PartialOrd` on `Option<bool>`: `None` sorts before
`Some`, and `Some` payloads compare by the inner order. -/
def cmpOptBool : Option Bool → Option Bool → Ordering
  | none, none => .eq
  | none, some _ => .lt
  | some _, none => .gt
  | some a, some b => boolCmp a b

/-- The `#[derive(PartialOrd)]` on `WifiConfig` (lib.rs line 20): the derived
comparison is lexicographic in declaration order of the fields
(bssid, ssid, signal_strength, connect_success); it does NOT delegate to the
manual `Ord` implementation. -/
def WifiConfig.derivedCmp (a b : WifiConfig) : Ordering :=
  (natCmp a.bssid b.bssid).then
    ((compare a.ssid b.ssid).then
      ((intCmp a.signal_strength b.signal_strength).then
        (cmpOptBool a.connect_success b.connect_success)))

/-- Rust `c > p` on `WifiConfig`, which resolves through the derived
`PartialOrd`, not through the manual `Ord`. -/
def WifiConfig.rustGt (a b : WifiConfig) : Bool :=
  a.derivedCmp b == Ordering.gt

/-- Rust `Vec::sort_by(c)`: stable, ascending in the comparator. -/
def rustSortBy {α : Type _} (c : α → α → Ordering) (l : List α) : List α :=
  l.insertionSort (fun x y => c x y ≠ Ordering.gt)

/-- One raw observation returned by the scanner gateway
(`esp_radio::wifi::AccessPointInfo`, the fields this engine reads). -/
structure AccessPointInfo where
  bssid : Nat
  ssid : String
  signal_strength : Int
deriving DecidableEq

/-- The four compile-time `env!` strings of lib.rs lines 105-108. -/
structure EnvVars where
  SSID : String
  PASSWORD : String
  SSID2 : String
  PASSWORD2 : String

/-- The allow-list filter inside `scan_and_score_wgs` (lib.rs line 119). -/
def allow_listed (e : EnvVars) (x : AccessPointInfo) : Bool :=
  x.ssid == e.SSID || x.ssid == e.SSID2

/-- `scan_and_score_wgs` (lib.rs lines 112-144).  The radio call itself is
abstracted into the `scanResult` argument; the `.unwrap()` on it means a
transport error is a panic, modelled as `none`.  On success the observations
are filtered to the two allow-listed names, mapped to fresh `WifiConfig`
records with `connect_success = None`, and sorted descending
(`sort_by(|x, y| y.cmp(&x))`, best first). -/
def scan_and_score_wgs (e : EnvVars) (scanResult : Except Unit (List AccessPointInfo)) :
    Option (List WifiConfig) :=
  match scanResult with
  | .error _ => none
  | .ok result =>
    let r := (result.filter (allow_listed e)).map
      (fun x => { bssid := x.bssid, ssid := x.ssid,
                  signal_strength := x.signal_strength, connect_success := none })
    some (rustSortBy (fun x y => WifiConfig.cmp y x) r)

/-- The halving loop of `slice::binary_search_by_key` from the Rust standard
library, on the bssid key: compare the key at the midpoint with the target,
narrow to the half that could contain it, succeed on an exact hit.  The fuel
argument only makes the recursion structural; `right - left` shrinks every
step, so fuel `stored.length` is never exhausted early. -/
def binary_search_go (stored : List WifiConfig) (key : Nat) :
    Nat → Nat → Nat → Option Nat
  | 0, _, _ => none
  | fuel + 1, left, right =>
    if left < right then
      let mid := left + (right - left) / 2
      match natCmp ((stored.getD mid default).bssid) key with
      | .lt => binary_search_go stored key fuel (mid + 1) right
      | .gt => binary_search_go stored key fuel left mid
      | .eq => some mid
    else none

/-- `candidates_mut.binary_search_by_key(&w.bssid, |w| w.bssid)`
(main.rs line 405): search the CURRENT stored list, whatever order it is in,
for an entry with the given bssid. -/
def binary_search_by_key_bssid (stored : List WifiConfig) (key : Nat) : Option Nat :=
  binary_search_go stored key stored.length 0 stored.length

/-- The outcome carry-forward step of `do_scan` (main.rs lines 404-409): if the
binary search finds an index, copy that stored entry`s connect outcome onto the
freshly scanned record; otherwise leave the fresh record untouched. -/
def carry_forward (stored : List WifiConfig) (w : WifiConfig) : WifiConfig :=
  match binary_search_by_key_bssid stored w.bssid with
  | some x => { w with connect_success := (stored.getD x default).connect_success }
  | none => w

/-- `do_scan` (main.rs lines 399-415): scan and score, carry forward stored
outcomes by bssid, sort the merged list with `sort_by(|x, y| x.cmp(y))`
(ascending in the manual `Ord`), and replace the store with it; the returned
list is the store contents at the moment `SCAN_COMPLETE` is signaled. -/
def do_scan (e : EnvVars) (stored : List WifiConfig)
    (scanResult : Except Unit (List AccessPointInfo)) : Option (List WifiConfig) :=
  match scan_and_score_wgs e scanResult with
  | none => none
  | some wg => some (rustSortBy WifiConfig.cmp (wg.map (carry_forward stored)))

/-- `Credential` (lib.rs lines 89-92). -/
structure Credential where
  ssid : String
  password : String

/-- `KNOWN_CREDS` (lib.rs lines 94-103), field for field: the second pair is
built with `ssid: PASSWORD` in the source. -/
def KNOWN_CREDS (e : EnvVars) : Credential × Credential :=
  ({ ssid := e.SSID, password := e.PASSWORD },
   { ssid := e.PASSWORD, password := e.PASSWORD2 })

/-- The fields of `esp_radio ClientConfig` that
`get_client_config_from_candidate` sets. -/
structure ClientConfig where
  ssid : String
  bssid : Option Nat
  password : String
deriving DecidableEq

/-- `get_client_config_from_candidate` (main.rs lines 207-219): if the
candidate name equals the first known credential ssid use the first pair,
otherwise use the second pair; there is no failing branch. -/
def get_client_config_from_candidate (e : EnvVars) (wifi : WifiConfig) : ClientConfig :=
  if wifi.ssid == (KNOWN_CREDS e).1.ssid then
    { ssid := (KNOWN_CREDS e).1.ssid, bssid := some wifi.bssid,
      password := (KNOWN_CREDS e).1.password }
  else
    { ssid := (KNOWN_CREDS e).2.ssid, bssid := some wifi.bssid,
      password := (KNOWN_CREDS e).2.password }

/-- The scan-complete branch of `best_connection_task` (main.rs lines 241-271):
given the first element of the store and the local persisted baseline, return
(the value signaled to `STORE_WIFI` if any, the new local baseline, the new
`new_best_found` flag).  `c == p` goes through the manual `PartialEq` (bssid
equality) and only sets the flag; `c > p` goes through the derived
`PartialOrd` and is the only persisting comparison. -/
def best_connection_scan_step (best : Option WifiConfig)
    (local_persisted : Option WifiConfig) (new_best_found : Bool) :
    Option WifiConfig × Option WifiConfig × Bool :=
  match best, local_persisted with
  | none, none => (none, none, new_best_found)
  | none, some x => (none, some x, new_best_found)
  | some c, none => (some c, some c, true)
  | some c, some p =>
    let nbf := if c.rustEq p then true else new_best_found
    if c.rustGt p then (some c, some c, true) else (none, some p, nbf)

/-- What one pass of `run_disconnected` did: the `set_config` call if any, the
fact that `connect_async` ran, and the store contents afterwards. -/
structure DisconnectedStep where
  configured : Option ClientConfig
  connect_attempted : Bool
  store_after : List WifiConfig
deriving DecidableEq

/-- `run_disconnected` (main.rs lines 338-369): if a scan was requested,
perform `do_scan`; then, if the store has a first element, reconfigure the
radio for it; then call `connect_async` UNCONDITIONALLY and record the outcome
on the first element if there is one.  `connect_ok` is the result of the
connect attempt; `none` means the scan panicked. -/
def run_disconnected (e : EnvVars) (scan_requested : Bool)
    (scanResult : Except Unit (List AccessPointInfo))
    (stored : List WifiConfig) (connect_ok : Bool) : Option DisconnectedStep :=
  let afterScan : Option (List WifiConfig) :=
    if scan_requested then do_scan e stored scanResult else some stored
  match afterScan with
  | none => none
  | some st =>
    let configured := st.head?.map (get_client_config_from_candidate e)
    let st2 : List WifiConfig :=
      match st with
      | [] => []
      | b :: rest => { b with connect_success := some connect_ok } :: rest
    some { configured := configured, connect_attempted := true, store_after := st2 }

/-- Modelled from the spec (section 4.1 Ranking Policy), for comparison with
the source`s `WifiConfig.cmp`: the outcome-class precedence
succeeded > never-attempted > failed, as a numeric rank. -/
def outcomeClassRank : Option Bool → Nat
  | some true => 2
  | none => 1
  | some false => 0

/-! ### Helper lemmas about the comparators -/

theorem natCmp_lt_iff {a b : Nat} : natCmp a b = Ordering.lt ↔ a < b := by
  unfold natCmp
  split
  · rename_i h; simp; omega
  · split
    · rename_i h h2; simp; omega
    · rename_i h h2; simp; omega

theorem natCmp_eq_iff {a b : Nat} : natCmp a b = Ordering.eq ↔ a = b := by
  unfold natCmp
  split
  · rename_i h; simp; omega
  · split
    · rename_i h h2; simp; omega
    · rename_i h h2; simp; omega

theorem natCmp_gt_iff {a b : Nat} : natCmp a b = Ordering.gt ↔ b < a := by
  unfold natCmp
  split
  · rename_i h; simp; omega
  · split
    · rename_i h h2; simp; omega
    · rename_i h h2; simp; omega

theorem intCmp_lt_iff {a b : Int} : intCmp a b = Ordering.lt ↔ a < b := by
  unfold intCmp
  split
  · rename_i h; simp; omega
  · split
    · rename_i h h2; simp; omega
    · rename_i h h2; simp; omega

theorem intCmp_eq_iff {a b : Int} : intCmp a b = Ordering.eq ↔ a = b := by
  unfold intCmp
  split
  · rename_i h; simp; omega
  · split
    · rename_i h h2; simp; omega
    · rename_i h h2; simp; omega

theorem intCmp_gt_iff {a b : Int} : intCmp a b = Ordering.gt ↔ b < a := by
  unfold intCmp
  split
  · rename_i h; simp; omega
  · split
    · rename_i h h2; simp; omega
    · rename_i h h2; simp; omega

theorem natCmp_self (a : Nat) : natCmp a a = Ordering.eq := by
  unfold natCmp; simp

/-- The manual `Ord` is exactly the lexicographic comparison of
(outcome-class rank, signal strength). -/
theorem cmp_eq_lex (a b : WifiConfig) :
    a.cmp b =
      (natCmp (outcomeClassRank a.connect_success) (outcomeClassRank b.connect_success)).then
        (intCmp a.signal_strength b.signal_strength) := by
  rcases a with ⟨ab, an, av, ao⟩
  rcases b with ⟨bb, bn, bv, bo⟩
  rcases ao with _ | _ | _ <;> rcases bo with _ | _ | _ <;>
    simp [WifiConfig.cmp, WifiConfig.cmp_ss, outcomeClassRank, natCmp, Ordering.then]

theorem cmp_gt_char (a b : WifiConfig) :
    a.cmp b = Ordering.gt ↔
      (outcomeClassRank b.connect_success < outcomeClassRank a.connect_success ∨
        (outcomeClassRank a.connect_success = outcomeClassRank b.connect_success ∧
          b.signal_strength < a.signal_strength)) := by
  rw [cmp_eq_lex, Ordering.then_eq_gt, natCmp_gt_iff, natCmp_eq_iff, intCmp_gt_iff]

theorem cmp_lt_char (a b : WifiConfig) :
    a.cmp b = Ordering.lt ↔
      (outcomeClassRank a.connect_success < outcomeClassRank b.connect_success ∨
        (outcomeClassRank a.connect_success = outcomeClassRank b.connect_success ∧
          a.signal_strength < b.signal_strength)) := by
  rw [cmp_eq_lex, Ordering.then_eq_lt, natCmp_lt_iff, natCmp_eq_iff, intCmp_lt_iff]

theorem cmp_eq_char (a b : WifiConfig) :
    a.cmp b = Ordering.eq ↔
      (outcomeClassRank a.connect_success = outcomeClassRank b.connect_success ∧
        a.signal_strength = b.signal_strength) := by
  rw [cmp_eq_lex, Ordering.then_eq_eq, natCmp_eq_iff, intCmp_eq_iff]

/-- The sorted output of a Rust stable sort is a permutation of its input. -/
theorem rustSortBy_perm {α : Type _} (c : α → α → Ordering) (l : List α) :
    (rustSortBy c l).Perm l :=
  List.perm_insertionSort _ l

theorem carry_forward_bssid (stored : List WifiConfig) (w : WifiConfig) :
    (carry_forward stored w).bssid = w.bssid := by
  unfold carry_forward
  split <;> rfl

/-- The multiset of bssids the store holds after a successful `do_scan` is
exactly the multiset of bssids of the allow-listed raw observations. -/
theorem do_scan_bssids_perm (e : EnvVars) (res : List AccessPointInfo)
    (stored out : List WifiConfig)
    (h : do_scan e stored (Except.ok res) = some out) :
    (out.map WifiConfig.bssid).Perm
      ((res.filter (allow_listed e)).map AccessPointInfo.bssid) := by
  have h2 : out = rustSortBy WifiConfig.cmp
      ((rustSortBy (fun x y => WifiConfig.cmp y x)
        ((res.filter (allow_listed e)).map
          (fun x => { bssid := x.bssid, ssid := x.ssid,
                      signal_strength := x.signal_strength, connect_success := none }))).map
        (carry_forward stored)) := by
    simpa [do_scan, scan_and_score_wgs] using h.symm
  rw [h2]
  have e1 : ∀ S : List WifiConfig,
      (S.map (carry_forward stored)).map WifiConfig.bssid = S.map WifiConfig.bssid := by
    intro S
    rw [List.map_map]
    exact List.map_congr_left (fun a _ => carry_forward_bssid stored a)
  have s1 := (rustSortBy_perm WifiConfig.cmp
      ((rustSortBy (fun x y => WifiConfig.cmp y x)
        ((res.filter (allow_listed e)).map
          (fun x => { bssid := x.bssid, ssid := x.ssid,
                      signal_strength := x.signal_strength, connect_success := none }))).map
        (carry_forward stored))).map WifiConfig.bssid
  rw [e1] at s1
  have s2 := (rustSortBy_perm (fun x y => WifiConfig.cmp y x)
      ((res.filter (allow_listed e)).map
        (fun x => { bssid := x.bssid, ssid := x.ssid,
                    signal_strength := x.signal_strength, connect_success := none }))).map
      WifiConfig.bssid
  have s3 := s1.trans s2
  rw [List.map_map] at s3
  exact s3

/-! ### Claim theorems -/

/-- C2: for every two candidates, `cmp` orders first by outcome class with
precedence succeeded > never-attempted > failed, and only within the same
class by signal strength (larger is greater); in particular a succeeded
candidate compares Greater than a failed one regardless of signal strengths. -/
theorem C2_outcome_class_precedence :
    (∀ a b : WifiConfig,
      a.cmp b =
        (natCmp (outcomeClassRank a.connect_success)
          (outcomeClassRank b.connect_success)).then
          (intCmp a.signal_strength b.signal_strength)) ∧
    (∀ (bs1 bs2 : Nat) (n1 n2 : String) (s1 s2 : Int),
      (WifiConfig.mk bs1 n1 s1 (some true)).cmp (WifiConfig.mk bs2 n2 s2 (some false)) =
        Ordering.gt) :=
  ⟨cmp_eq_lex, fun _ _ _ _ _ _ => rfl⟩

/-- C9: `cmp` is a consistent total order: it always returns exactly one of
lt, eq, gt; it is antisymmetric (swapping the arguments swaps the result);
the gt, eq and lt relations it induces are each transitive; and on two
candidates of the same outcome class it coincides with the signal-strength
comparison. -/
theorem C9_cmp_total_order :
    (∀ a b : WifiConfig,
      a.cmp b = Ordering.lt ∨ a.cmp b = Ordering.eq ∨ a.cmp b = Ordering.gt) ∧
    (∀ a b : WifiConfig, (a.cmp b).swap = b.cmp a) ∧
    (∀ a b c : WifiConfig,
      a.cmp b = Ordering.gt → b.cmp c = Ordering.gt → a.cmp c = Ordering.gt) ∧
    (∀ a b c : WifiConfig,
      a.cmp b = Ordering.eq → b.cmp c = Ordering.eq → a.cmp c = Ordering.eq) ∧
    (∀ a b c : WifiConfig,
      a.cmp b = Ordering.lt → b.cmp c = Ordering.lt → a.cmp c = Ordering.lt) ∧
    (∀ a b : WifiConfig, a.connect_success = b.connect_success →
      a.cmp b = intCmp a.signal_strength b.signal_strength) := by
  refine ⟨?_, ?_, ?_, ?_, ?_, ?_⟩
  · intro a b
    rcases e : a.cmp b with _ | _ | _ <;> simp
  · intro a b
    rcases e : a.cmp b with _ | _ | _
    · have h := (cmp_lt_char a b).mp e
      have hb : b.cmp a = Ordering.gt := (cmp_gt_char b a).mpr (by omega)
      rw [hb]
      decide
    · have h := (cmp_eq_char a b).mp e
      have hb : b.cmp a = Ordering.eq := (cmp_eq_char b a).mpr (by omega)
      rw [hb]
      decide
    · have h := (cmp_gt_char a b).mp e
      have hb : b.cmp a = Ordering.lt := (cmp_lt_char b a).mpr (by omega)
      rw [hb]
      decide
  · intro a b c hab hbc
    rw [cmp_gt_char] at hab hbc ⊢
    omega
  · intro a b c hab hbc
    rw [cmp_eq_char] at hab hbc ⊢
    omega
  · intro a b c hab hbc
    rw [cmp_lt_char] at hab hbc ⊢
    omega
  · intro a b h
    rw [cmp_eq_lex, h, natCmp_self]
    rfl

/-- C9 witness: the transitivity component applied at three concrete
candidates. -/
theorem C9_cmp_total_order_witness :
    (WifiConfig.mk 1 "a" (-40) (some true)).cmp (WifiConfig.mk 3 "c" (-80) (some false)) =
      Ordering.gt :=
  C9_cmp_total_order.2.2.1 _ (WifiConfig.mk 2 "b" (-60) none) _ (by decide) (by decide)

/-- C10: the result of `cmp` depends only on the connect outcomes and signal
strengths of its two arguments: bssid and ssid never influence the rank. -/
theorem C10_ranking_noninterference :
    ∀ a b a2 b2 : WifiConfig,
      a.connect_success = a2.connect_success →
      a.signal_strength = a2.signal_strength →
      b.connect_success = b2.connect_success →
      b.signal_strength = b2.signal_strength →
      a.cmp b = a2.cmp b2 := by
  intro a b a2 b2 h1 h2 h3 h4
  rw [cmp_eq_lex, cmp_eq_lex, h1, h2, h3, h4]

/-- C10 witness: two pairs agreeing on outcome and signal but with different
addresses and names compare identically. -/
theorem C10_ranking_noninterference_witness :
    (WifiConfig.mk 1 "a" (-40) none).cmp (WifiConfig.mk 2 "b" (-50) (some true)) =
      (WifiConfig.mk 9 "zz" (-40) none).cmp (WifiConfig.mk 8 "qq" (-50) (some true)) :=
  C10_ranking_noninterference _ _ _ _ rfl rfl rfl rfl

/-- C1: the best-first invariant fails in the code.  With an empty store and a
scan pass observing two allow-listed access points at signal strengths -40 and
-80 (both never attempted), `do_scan` re-sorts the store with
`sort_by(|x, y| x.cmp(y))`, i.e. ascending in the ranking order, so at the
moment the scan-completion signal fires the FIRST element — the one every
reader takes as the best — is the -80 entry, while the -40 entry is strictly
higher ranked. -/
theorem C1_store_not_best_first :
    do_scan ⟨"W", "p1", "X", "p2"⟩ []
        (Except.ok [⟨10, "W", (-40)⟩, ⟨11, "W", (-80)⟩]) =
      some [WifiConfig.mk 11 "W" (-80) none, WifiConfig.mk 10 "W" (-40) none] ∧
    (WifiConfig.mk 10 "W" (-40) none).cmp (WifiConfig.mk 11 "W" (-80) none) =
      Ordering.gt := by
  constructor
  · decide
  · decide

/-- C3: outcome carry-forward fails in the code.  The store holds three
all-failed entries in exactly the ascending rank order the code itself
maintains (signals -90, -70, -50), whose bssid sequence is 2, 3, 1; a fresh
scan re-observes bssid 1 at signal -60.  The merge looks the address up with a
binary search that assumes bssid order, misses it, and the resulting entry for
bssid 1 has `connect_success = none` instead of the stored `some false`: the
outcome history is lost.  The first conjunct checks the stored list really is
in the order the code keeps (pairwise not-Greater under `cmp`). -/
theorem C3_carry_forward_lost :
    ([WifiConfig.mk 2 "W" (-90) (some false), WifiConfig.mk 3 "W" (-70) (some false),
      WifiConfig.mk 1 "W" (-50) (some false)].Pairwise
        (fun x y => x.cmp y ≠ Ordering.gt)) ∧
    do_scan ⟨"W", "p1", "X", "p2"⟩
        [WifiConfig.mk 2 "W" (-90) (some false), WifiConfig.mk 3 "W" (-70) (some false),
         WifiConfig.mk 1 "W" (-50) (some false)]
        (Except.ok [⟨1, "W", (-60)⟩]) =
      some [WifiConfig.mk 1 "W" (-60) none] := by
  constructor
  · decide
  · decide

/-- C4: the persist decision does not follow the Ranking Policy.  The best
candidate c (bssid 1, signal -40, succeeded) is strictly ahead of the baseline
p (bssid 2, signal -80, failed) under the Ranking Policy (`c.cmp p = gt`), so
the claim requires a persist; but the code compares `c > p` through the
derived lexicographic field order, which looks at the bssid bytes first, finds
1 < 2, and persists nothing: the step returns no `STORE_WIFI` signal and keeps
baseline p. -/
theorem C4_monitor_ignores_ranking_policy :
    best_connection_scan_step (some (WifiConfig.mk 1 "W" (-40) (some true)))
        (some (WifiConfig.mk 2 "W" (-80) (some false))) false =
      (none, some (WifiConfig.mk 2 "W" (-80) (some false)), false) ∧
    (WifiConfig.mk 1 "W" (-40) (some true)).cmp (WifiConfig.mk 2 "W" (-80) (some false)) =
      Ordering.gt := by
  constructor
  · decide
  · decide

/-- C5: credential resolution is broken for the second known name and does not
fail closed.  With env strings SSID = "home", PASSWORD = "pw1",
SSID2 = "office", PASSWORD2 = "pw2": a candidate named "office" (the second
known SSID) resolves to a client config whose ssid field is "pw1" — the
PASSWORD string, because `KNOWN_CREDS.1.ssid` is built from PASSWORD — and an
unrecognized name "evil" silently resolves to that same second pair instead of
failing. -/
theorem C5_credential_lookup_defect :
    get_client_config_from_candidate ⟨"home", "pw1", "office", "pw2"⟩
        (WifiConfig.mk 5 "office" (-50) none) =
      ClientConfig.mk "pw1" (some 5) "pw2" ∧
    get_client_config_from_candidate ⟨"home", "pw1", "office", "pw2"⟩
        (WifiConfig.mk 6 "evil" (-50) none) =
      ClientConfig.mk "pw1" (some 6) "pw2" := by
  constructor
  · decide
  · decide

/-- C6 counterexample: a failed scan is NOT treated as zero results — the
model of `scan_and_score_wgs` returns no value at all (the `unwrap` panic)
rather than the empty candidate list the claim requires. -/
theorem C6_scan_error_not_zero_results :
    scan_and_score_wgs ⟨"home", "pw1", "office", "pw2"⟩ (Except.error ()) ≠ some [] := by
  decide

/-- C6 amended: when the scanner gateway fails with a transport error,
`scan_and_score_wgs` unwraps the error and panics, and `do_scan` therefore
also aborts: the failure is fatal, not converted into an empty scan pass. -/
theorem C6_scan_error_panics :
    (∀ e : EnvVars, scan_and_score_wgs e (Except.error ()) = none) ∧
    (∀ (e : EnvVars) (stored : List WifiConfig),
      do_scan e stored (Except.error ()) = none) :=
  ⟨fun _ => rfl, fun _ _ => rfl⟩

/-- C7 counterexample: the scan-merge path performs no deduplication by
address.  A scan pass that observes the same bssid 7 twice (at -40 and -50)
leaves the store with TWO entries for bssid 7 after `do_scan`. -/
theorem C7_no_dedup_counterexample :
    (do_scan ⟨"W", "p1", "X", "p2"⟩ []
        (Except.ok [⟨7, "W", (-40)⟩, ⟨7, "W", (-50)⟩])).map
      (fun l => l.countP (fun w => w.bssid == 7)) = some 2 := by
  decide

/-- C7 amended: `do_scan` never merges or drops observations, so the store
holds at most one entry per hardware address exactly when the allow-listed
observations of the scan pass themselves carry pairwise distinct addresses:
under that hypothesis the bssids of the replaced store are pairwise
distinct. -/
theorem C7_unique_bssid_if_scan_unique (e : EnvVars) (res : List AccessPointInfo)
    (stored out : List WifiConfig)
    (hnd : ((res.filter (allow_listed e)).map AccessPointInfo.bssid).Nodup)
    (h : do_scan e stored (Except.ok res) = some out) :
    (out.map WifiConfig.bssid).Nodup :=
  (do_scan_bssids_perm e res stored out h).nodup_iff.mpr hnd

/-- C7 witness: the amended theorem applied to a concrete one-element scan. -/
theorem C7_unique_bssid_witness :
    ([WifiConfig.mk 7 "W" (-40) none].map WifiConfig.bssid).Nodup :=
  C7_unique_bssid_if_scan_unique ⟨"W", "p1", "X", "p2"⟩ [⟨7, "W", (-40)⟩] []
    [WifiConfig.mk 7 "W" (-40) none] (by decide) (by decide)

/-- C8 counterexample: in the disconnected state with an EMPTY candidate
store (and no scan request), the state machine still makes a connect attempt:
`connect_async` is called unconditionally. -/
theorem C8_empty_store_still_connects :
    (run_disconnected ⟨"home", "pw1", "office", "pw2"⟩ false (Except.ok []) [] true).map
      DisconnectedStep.connect_attempted = some true := by
  decide

/-- C8 amended: in the disconnected state with an empty store and no pending
scan request, no radio reconfiguration happens and no outcome is recorded
(the store stays empty), but a connect attempt with the previously configured
credentials is still made before the fixed backoff of the next iteration. -/
theorem C8_empty_store_behavior :
    ∀ (e : EnvVars) (scanResult : Except Unit (List AccessPointInfo)) (connect_ok : Bool),
      run_disconnected e false scanResult [] connect_ok =
        some { configured := none, connect_attempted := true, store_after := [] } :=
  fun _ _ _ => rfl
